import Mathlib

/-!
Verification of the ranking-page scraper scripts (stop_high_scraper.py,
stop_low_scraper.py, simple_yahoo_scraper.py, yahoo_finance_scraper.py,
ytd_high_analyzer.py, ytd_low_analyzer.py) against their specification.

The Python sources are shallowly embedded below.  External collaborators
(the HTTP client, BeautifulSoup, `json.loads`, yfinance) are modelled as
oracles / structured inputs; everything the scripts themselves compute
(regular-expression searches, row normalization, fallback chains, the
multi-page loops, score and ratio formulas, dataframe filtering) is
translated directly from the source.
-/

namespace Scraper

/-! ### String primitives mirroring the Python `re` idioms used by the sources -/

/-- Characters matched by the Python regex class `\s` (ASCII range). -/
def isPySpace (c : Char) : Bool :=
  c == ' ' || c == '\t' || c == '\n' || c == '\r' || c == '\x0b' || c == '\x0c'

/-- `re.search(key + capture, s)` for patterns of the form `key([^X]+)`:
leftmost occurrence of the literal `key` followed by at least one character
not satisfying `stop`; the capture is the maximal such run (greedy `+`).
Mirrors `re.search(r"code=([^&]+)", href)` and
`re.search(r"/quote/([^/?]+)", href)` in the sources. -/
def searchKeyCapture (key : List Char) (stop : Char → Bool) : List Char → Option (List Char)
  | [] => none
  | c :: rest =>
    if key.isPrefixOf (c :: rest) then
      match ((c :: rest).drop key.length).takeWhile (fun ch => !stop ch) with
      | [] => searchKeyCapture key stop rest
      | cap => some cap
    else searchKeyCapture key stop rest

/-- `re.search(r"(\d{4})", s)`: the first run of 4 consecutive ASCII digits. -/
def findFourDigits : List Char → Option (List Char)
  | a :: b :: c :: d :: rest =>
    if a.isDigit && b.isDigit && c.isDigit && d.isDigit then some [a, b, c, d]
    else findFourDigits (b :: c :: d :: rest)
  | _ => none

/-- Python `s.replace(".T", "")`: left-to-right, non-overlapping removal of
every occurrence of `.T` (the output is not re-scanned). -/
def replaceDotT : List Char → List Char
  | '.' :: 'T' :: rest => replaceDotT rest
  | c :: rest => c :: replaceDotT rest
  | [] => []

/-- Python `s.replace(".", "")`: remove every period. -/
def removePeriods (s : List Char) : List Char := s.filter (fun c => c != '.')

/-- Python `s.isdigit()` (ASCII digits): non-empty and all digits. -/
def allDigits (s : List Char) : Bool := !s.isEmpty && s.all Char.isDigit

/-- Python `int(s)` on an all-digit string. -/
def natOfDigits (s : List Char) : Nat := s.foldl (fun a c => 10 * a + (c.toNat - 48)) 0

/-! ### Stock-code extraction fallback chains -/

def keyCode : List Char := "code=".data

def keyQuote : List Char := "/quote/".data

def keyDetail : List Char := "/detail/".data

def stopAmp (c : Char) : Bool := c == '&'

def stopSlashQm (c : Char) : Bool := c == '/' || c == '?'

/-- `StopLowScraper._extract_stock_code` (stop_low_scraper.py:199-222); the
inline code extraction of `YearToDateHighAnalyzer.get_ytd_high_stocks`
(ytd_high_analyzer.py:86-96) and of `YearToDateLowAnalyzer.get_ytd_low_stocks`
is identical except that the placeholder uses the parsed rank as `rowIndex`.
Order: `code=([^&]+)`, else `/quote/([^/?]+)` (each stripped of `.T`),
else the first 4-digit run of the cell text, else `UNKNOWN_{rowIndex}`. -/
def extract_stock_code_low (href cellText : List Char) (rowIndex : Nat) : List Char :=
  match searchKeyCapture keyCode stopAmp href with
  | some cap => replaceDotT cap
  | none =>
    match searchKeyCapture keyQuote stopSlashQm href with
    | some cap => replaceDotT cap
    | none =>
      match findFourDigits cellText with
      | some d => d
      | none => "UNKNOWN_".data ++ (toString rowIndex).data

/-- `StopHighScraper._extract_stock_code` (stop_high_scraper.py:332-344):
same chain as the stop-low variant but without the `.T` strip and with the
`UNK{rowIndex}` placeholder. -/
def extract_stock_code_high (cellText href : List Char) (rowIndex : Nat) : List Char :=
  match searchKeyCapture keyCode stopAmp href with
  | some cap => cap
  | none =>
    match searchKeyCapture keyQuote stopSlashQm href with
    | some cap => cap
    | none =>
      match findFourDigits cellText with
      | some d => d
      | none => "UNK".data ++ (toString rowIndex).data

/-- The inline code extraction of
`SimpleYahooFinanceJapanScraper.get_stocks_from_html`
(simple_yahoo_scraper.py:87-97): `code=([^&]+)`, else `/detail/([^/?]+)`
(no `.T` strip), else 4-digit cell text, else `UNK{i}`. -/
def extract_stock_code_simple (href cellText : List Char) (i : Nat) : List Char :=
  match searchKeyCapture keyCode stopAmp href with
  | some cap => cap
  | none =>
    match searchKeyCapture keyDetail stopSlashQm href with
    | some cap => cap
    | none =>
      match findFourDigits cellText with
      | some d => d
      | none => "UNK".data ++ (toString i).data

/-! ### HTML-path row model

BeautifulSoup is an external collaborator: a table row is modelled as the
structured data the sources read off it — the list of cells
(`row.find_all(["td", "th"])`), and per cell its stripped text
(`get_text(strip=True)`), full text (`get_text()`), the first anchor
(`cell.find("a")`) and the stripped text of the first span (`cell.find("span")`). -/

structure Anchor where
  text : String
  href? : Option String
deriving DecidableEq

structure Cell where
  text : String
  fullText : String
  link? : Option Anchor
  span? : Option String
deriving DecidableEq

structure Row where
  cells : List Cell
deriving DecidableEq

/-- One record of `StopHighScraper._extract_from_html` /
`_parse_table_row` (stop_high_scraper.py:359-409). -/
structure HRecord where
  rank : Nat
  stock_code : String
  stock_name : String
  market : String
  yahoo_url : String
  current_price : Option String
  price_change : Option String
  price_change_rate : Option String
deriving DecidableEq

/-- Python `href.startswith("/")`. -/
def startsSlash (s : List Char) : Bool :=
  match s with
  | '/' :: _ => true
  | _ => false

/-- `StopHighScraper._extract_price_info` (stop_high_scraper.py:346-357):
cells from index 2 mapped positionally (2 → current price, 3 → change,
4 → change rate; later cells ignored). -/
def extract_price_info (cells : List Cell) : Option String × Option String × Option String :=
  ((cells.drop 2)[0]?.map Cell.text, (cells.drop 2)[1]?.map Cell.text,
    (cells.drop 2)[2]?.map Cell.text)

/-- `StopHighScraper._parse_table_row` (stop_high_scraper.py:359-409).
`none` models both the explicit `return None` paths and the per-row
`except` clause (nothing in the translated body can raise). -/
def parse_table_row (row : Row) (rowIndex : Nat) : Option HRecord :=
  match row.cells with
  | c0 :: c1 :: c2 :: rest =>
    let rankChars := removePeriods c0.text.data
    if allDigits rankChars then
      match c1.link? with
      | some link =>
        let href := link.href?.getD ("")
        let code := extract_stock_code_high c1.fullText.data href.data rowIndex
        let priceInfo := extract_price_info (c0 :: c1 :: c2 :: rest)
        some
          { rank := natOfDigits rankChars
            stock_code := String.mk code
            stock_name := link.text
            market := c1.span?.getD ("不明")
            yahoo_url :=
              if startsSlash href.data then ("https://finance.yahoo.co.jp") ++ href else href
            current_price := priceInfo.1
            price_change := priceInfo.2.1
            price_change_rate := priceInfo.2.2 }
      | none => none
    else none
  | _ => none

/-- Python `enumerate(xs, n)`. -/
def enumFrom (n : Nat) : List α → List (Nat × α)
  | [] => []
  | x :: xs => (n, x) :: enumFrom (n + 1) xs

/-- `StopHighScraper._extract_from_html` (stop_high_scraper.py:411-439) after
the selector chain: given the selected rows, skip the header row and keep the
rows `_parse_table_row` accepts (1-based row index).  An empty selection
yields the empty list. -/
def extract_from_html (rows : List Row) : List HRecord :=
  match rows with
  | [] => []
  | _ :: dataRows => (enumFrom 1 dataRows).filterMap fun p => parse_table_row p.2 p.1

/-! ### Rank parsing (simple_yahoo_scraper.py / yahoo_finance_scraper.py) -/

/-- The rank acceptance of `SimpleYahooFinanceJapanScraper.get_stocks_from_html`
(simple_yahoo_scraper.py:69-73): remove every period, require the remainder to
be all digits, emit its integer value.  (`StopHighScraper._parse_table_row`,
`StopLowScraper._parse_stock_row` and both YTD analyzers use the same logic.) -/
def parse_rank_simple (t : String) : Option Nat :=
  let r := removePeriods t.data
  if allDigits r then some (natOfDigits r) else none

/-- The rank acceptance of `YahooFinanceJapanScraper.parse_stock_data`
(yahoo_finance_scraper.py:140-145): `rank_text.isdigit()` on the raw text,
with no period removal at all. -/
def parse_rank_yahoo (t : String) : Option Nat :=
  if allDigits t.data then some (natOfDigits t.data) else none

/-! ### Error taxonomy (stop_high_scraper.py:20-41) -/

inductive ScrapeError where
  | validationError (msg : String)
  | networkError (msg : String)
  | dataParsingError (msg : String)
  /-- the `StopHighScraperError` base class (raised by the generic
  `except Exception` re-wrap in `get_stop_high_stocks`). -/
  | scraperError (msg : String)
deriving DecidableEq

def ScrapeError.msg : ScrapeError → String
  | .validationError m => m
  | .networkError m => m
  | .dataParsingError m => m
  | .scraperError m => m

/-- Whether the error is caught by
`except (ValidationError, NetworkError, DataParsingError)` in
`StopHighScraper.get_multiple_pages` (stop_high_scraper.py:489). -/
def ScrapeError.isTyped : ScrapeError → Bool
  | .validationError _ => true
  | .networkError _ => true
  | .dataParsingError _ => true
  | .scraperError _ => false

/-! ### JSON-path model (stop_high_scraper.py:219-310)

`json.loads` is an external collaborator, modelled as a decoder oracle
`String → Except String JVal` (errors are `json.JSONDecodeError` messages).
Python values coming out of it are modelled by `JVal`. -/

inductive JVal where
  | s (v : String)
  | n (v : ℚ)
  | b (v : Bool)
  | null
  | arr (xs : List JVal)
  | obj (fields : List (String × JVal))

/-- `dict.get` lookup among the fields of a dict (parsed JSON objects have
distinct keys, so first-match lookup is faithful). -/
def jlookup (fields : List (String × JVal)) (k : String) : Option JVal :=
  match fields with
  | [] => none
  | (k', v) :: rest => if k' = k then some v else jlookup rest k

/-- Python truthiness of a `JVal` (used by `if stop_price:`). -/
def jTruthy : JVal → Bool
  | .s v => v != ""
  | .n v => decide (v ≠ 0)
  | .b v => v
  | .null => false
  | .arr xs => !xs.isEmpty
  | .obj fs => !fs.isEmpty

/-- Python `str(x)` as used by the `yahoo_url` f-string.  The sources only
ever interpolate the (string-valued) `stockCode`; container renderings are
abbreviated. -/
def pyStr : JVal → String
  | .s v => v
  | .n v => toString v
  | .b true => "True"
  | .b false => "False"
  | .null => "None"
  | .arr _ => "[...]"
  | .obj _ => "\x7b...\x7d"

/-- One record of `StopHighScraper._parse_ranking_data`
(stop_high_scraper.py:274-304); the price-change triple is merged in only
when `stopPrice` is truthy. -/
structure JRecord where
  rank : Nat
  stock_code : JVal
  stock_name : JVal
  market : JVal
  current_price : JVal
  yahoo_url : String
  price_change : Option JVal
  price_change_rate : Option JVal
  previous_close : Option JVal

/-- The body of the per-element `try` in `_parse_ranking_data`
(stop_high_scraper.py:275-304).  `none` models the inner `except` clause:
it fires when the element is not a dict (`.get` raises `AttributeError`),
or when `rankingResult` / a truthy `stopPrice` is a non-dict value. -/
def parse_ranking_row (i : Nat) (result : JVal) : Option JRecord :=
  match result with
  | .obj fs =>
    let code := (jlookup fs ("stockCode")).getD (.s (""))
    let base : JRecord :=
      { rank := i
        stock_code := code
        stock_name := (jlookup fs ("stockName")).getD (.s (""))
        market := (jlookup fs ("marketName")).getD (.s (""))
        current_price := (jlookup fs ("savePrice")).getD (.s (""))
        yahoo_url := "https://finance.yahoo.co.jp/quote/" ++ pyStr code
        price_change := none
        price_change_rate := none
        previous_close := none }
    match (jlookup fs ("rankingResult")).getD (.obj []) with
    | .obj rfs =>
      let sp := (jlookup rfs ("stopPrice")).getD (.obj [])
      if jTruthy sp then
        match sp with
        | .obj sfs =>
          some
            { base with
              price_change := some ((jlookup sfs ("changePrice")).getD (.s ("")))
              price_change_rate := some ((jlookup sfs ("changePriceRate")).getD (.s ("")))
              previous_close := some ((jlookup sfs ("previousClose")).getD (.s (""))) }
        | _ => none
      else some base
    | _ => none
  | _ => none

/-- `StopHighScraper._parse_ranking_data` (stop_high_scraper.py:258-310):
`json_data.get("results", [])`, then each element is processed under a
per-element `try` (1-based enumeration).  A non-iterable `results` value
raises `TypeError` at `enumerate`, which the outer `except` re-raises as a
`DataParsingError`; iterating a string or a dict yields strings, every one
of which is skipped by the inner `except`, giving an empty result. -/
def parse_ranking_data (j : JVal) : Except ScrapeError (List JRecord) :=
  match j with
  | .obj fs =>
    match (jlookup fs ("results")).getD (.arr []) with
    | .arr xs => .ok ((enumFrom 1 xs).filterMap fun p => parse_ranking_row p.1 p.2)
    | .s _ => .ok []
    | .obj _ => .ok []
    | _ => .error (.dataParsingError ("ランキングデータの解析に失敗しました: TypeError"))
  | _ => .error (.dataParsingError ("ランキングデータの解析に失敗しました: AttributeError"))

/-! ### Embedded-JSON pattern search (stop_high_scraper.py:232-247)

Pattern 1 is `window\.mainRankingList\s*=\s*({.*?});` with `re.DOTALL`:
leftmost occurrence of the literal, then optional whitespace, `=`, optional
whitespace, an opening brace, and a non-greedy body ending at the first
brace-semicolon pair; the capture includes the braces.  Pattern 2 is
`"mainRankingList"\s*:\s*({.*?})`: with nothing after the group the
non-greedy body ends at the first closing brace. -/

/-- Characters before the first `\x7d;` pair (regex `.*?` before `};`);
`none` when no such pair follows (the match attempt fails there and the
search resumes at the next start position). -/
def captureToBraceSemi : List Char → Option (List Char)
  | '\x7d' :: ';' :: _ => some []
  | c :: rest => (captureToBraceSemi rest).map (c :: ·)
  | [] => none

/-- Characters before the first `\x7d` (regex `.*?` before `}` at pattern end). -/
def captureToBrace : List Char → Option (List Char)
  | '\x7d' :: _ => some []
  | c :: rest => (captureToBrace rest).map (c :: ·)
  | [] => none

def litMainRanking : List Char := "window.mainRankingList".data

def litMainRankingQuoted : List Char := "\"mainRankingList\"".data

/-- After the pattern-1 literal: `\s* = \s* \x7b (.*?) \x7d;`; returns
`group(1)` (braces included). -/
def matchAssignAfter (s : List Char) : Option (List Char) :=
  match s.dropWhile isPySpace with
  | '=' :: s2 =>
    match s2.dropWhile isPySpace with
    | '\x7b' :: s3 => (captureToBraceSemi s3).map fun inner => '\x7b' :: inner ++ ['\x7d']
    | _ => none
  | _ => none

/-- After the pattern-2 literal: `\s* : \s* \x7b (.*?) \x7d`. -/
def matchColonAfter (s : List Char) : Option (List Char) :=
  match s.dropWhile isPySpace with
  | ':' :: s2 =>
    match s2.dropWhile isPySpace with
    | '\x7b' :: s3 => (captureToBrace s3).map fun inner => '\x7b' :: inner ++ ['\x7d']
    | _ => none
  | _ => none

/-- Leftmost-match search for pattern 1. -/
def searchPatternAssign : List Char → Option (List Char)
  | [] => none
  | c :: rest =>
    if litMainRanking.isPrefixOf (c :: rest) then
      match matchAssignAfter ((c :: rest).drop litMainRanking.length) with
      | some g => some g
      | none => searchPatternAssign rest
    else searchPatternAssign rest

/-- Leftmost-match search for pattern 2. -/
def searchPatternQuoted : List Char → Option (List Char)
  | [] => none
  | c :: rest =>
    if litMainRankingQuoted.isPrefixOf (c :: rest) then
      match matchColonAfter ((c :: rest).drop litMainRankingQuoted.length) with
      | some g => some g
      | none => searchPatternQuoted rest
    else searchPatternQuoted rest

/-- The two-pattern search of `_extract_from_json`
(stop_high_scraper.py:233-240): pattern 1, else pattern 2. -/
def findJsonBlob (html : String) : Option String :=
  match searchPatternAssign html.data with
  | some g => some (String.mk g)
  | none =>
    match searchPatternQuoted html.data with
    | some g => some (String.mk g)
    | none => none

/-- `StopHighScraper._extract_from_json` (stop_high_scraper.py:219-256),
with `json.loads` as the decoder oracle `jdec`.  A matched blob that fails
to decode raises `DataParsingError("JSON解析エラー: ...")`
(`except json.JSONDecodeError`); a `DataParsingError` escaping
`_parse_ranking_data` is caught by `except Exception` and re-raised as
`DataParsingError("JSON抽出中の予期しないエラー: ...")`; no match returns `[]`. -/
def extract_from_json (jdec : String → Except String JVal) (html : String) :
    Except ScrapeError (List JRecord) :=
  match findJsonBlob html with
  | some blob =>
    match jdec blob with
    | .error e => .error (.dataParsingError ("JSON解析エラー: " ++ e))
    | .ok j =>
      match parse_ranking_data j with
      | .ok recs => .ok recs
      | .error err => .error (.dataParsingError ("JSON抽出中の予期しないエラー: " ++ err.msg))
  | none => .ok []

/-- The post-fetch dispatch of `StopHighScraper.get_stop_high_stocks`
(stop_high_scraper.py:195-217): try the JSON path; a non-empty JSON result
is returned, an empty one falls back to the HTML path (`soupRows` stands
for BeautifulSoup row selection on the response text).  Any exception from
the JSON path is caught by `except Exception` and re-raised as the base
`StopHighScraperError` — the HTML path is NOT tried and nothing is
returned. -/
def process_response (jdec : String → Except String JVal) (soupRows : String → List Row)
    (text : String) : Except ScrapeError (List JRecord ⊕ List HRecord) :=
  match extract_from_json jdec text with
  | .error e => .error (.scraperError ("予期しないエラーが発生しました: " ++ e.msg))
  | .ok js => if js.isEmpty then .ok (.inr (extract_from_html (soupRows text))) else .ok (.inl js)

/-! ### Multi-page drivers -/

/-- The consecutive page numbers `k, k+1, ..., k+n-1`. -/
def pageList (k : Nat) : Nat → List Nat
  | 0 => []
  | m + 1 => k :: pageList (k + 1) m

/-- Python `range(1, maxP + 1)`. -/
def pageRange (maxP : Nat) : List Nat := pageList 1 maxP

/-- The loop body of `StopHighScraper.get_multiple_pages`
(stop_high_scraper.py:469-491), with `get_stop_high_stocks` as the page
oracle `pages`.  Accumulates records, counts `time.sleep` calls (`delays`,
issued only when the page is non-empty and `page < maxP`) and page
requests (`fetched`).  A typed error (`ValidationError`, `NetworkError`,
`DataParsingError`) breaks the loop, returning the accumulated records; any
other exception propagates. -/
def runPages (pages : Nat → Except ScrapeError (List α)) (maxP : Nat) :
    List Nat → List α → Nat → Nat → Except ScrapeError (List α × Nat × Nat)
  | [], acc, delays, fetched => .ok (acc, delays, fetched)
  | p :: rest, acc, delays, fetched =>
    match pages p with
    | .error e => if e.isTyped then .ok (acc, delays, fetched + 1) else .error e
    | .ok [] => .ok (acc, delays, fetched + 1)
    | .ok stocks =>
      if p < maxP then runPages pages maxP rest (acc ++ stocks) (delays + 1) (fetched + 1)
      else runPages pages maxP rest (acc ++ stocks) delays (fetched + 1)

/-- `StopHighScraper.get_multiple_pages` (stop_high_scraper.py:441-496):
validate `max_pages`, then run pages `1..max_pages`.  The result carries
(records, sleep count, pages requested). -/
def get_multiple_pages (pages : Nat → Except ScrapeError (List α)) (max_pages : Int) :
    Except ScrapeError (List α × Nat × Nat) :=
  if max_pages < 1 then
    .error (.validationError ("max_pages は1以上の整数である必要があります"))
  else runPages pages max_pages.toNat (pageRange max_pages.toNat) [] 0 0

/-- The loop of `YahooFinanceJapanScraper.get_all_stocks`
(yahoo_finance_scraper.py:209-230).  The oracle combines
`get_page_data` + `parse_stock_data`: `none` is a failed fetch (break),
`some []` an empty page (break); after every non-empty page — including
page `max_pages` — `time.sleep(1)` runs unconditionally. -/
def yahooAllStocksLoop (pages : Nat → Option (List α)) :
    List Nat → List α → Nat → List α × Nat
  | [], acc, delays => (acc, delays)
  | p :: rest, acc, delays =>
    match pages p with
    | none => (acc, delays)
    | some [] => (acc, delays)
    | some stocks => yahooAllStocksLoop pages rest (acc ++ stocks) (delays + 1)

/-- `YahooFinanceJapanScraper.get_all_stocks` (yahoo_finance_scraper.py:197-230):
records plus `time.sleep` count. -/
def get_all_stocks (pages : Nat → Option (List α)) (max_pages : Nat) : List α × Nat :=
  yahooAllStocksLoop pages (pageRange max_pages) [] 0

/-- The loop of `YearToDateHighAnalyzer.get_ytd_high_stocks`
(ytd_high_analyzer.py:43-144).  The per-page `try` ends in
`except Exception: ... continue` (lines 140-142), so an erroring page is
skipped and the loop continues with the next page; a page with no rows also
`continue`s (modelled as `.ok []`). -/
def ytdCollectLoop (pages : Nat → Except Unit (List α)) : List Nat → List α → List α
  | [], acc => acc
  | p :: rest, acc =>
    match pages p with
    | .error _ => ytdCollectLoop pages rest acc
    | .ok xs => ytdCollectLoop pages rest (acc ++ xs)

/-- `YearToDateHighAnalyzer.get_ytd_high_stocks`, page loop only. -/
def get_ytd_high_stocks (pages : Nat → Except Unit (List α)) (maxP : Nat) : List α :=
  ytdCollectLoop pages (pageRange maxP) []

/-- Concatenation of the page results for a list of page numbers
(used to state partial-result theorems). -/
def concatMapPages (xs : Nat → List α) : List Nat → List α
  | [] => []
  | p :: rest => xs p ++ concatMapPages xs rest

/-! ### Float model for analyzer ratio formulas (ytd_low_analyzer.py:172-186)

The prices flowing into these formulas are numpy/pandas float64 values: a
zero-denominator division emits a warning and yields ±infinity or NaN, it
never raises.  Floats are modelled as exact rationals plus the IEEE special
values (the inputs of every claim are exact decimals, and the claimed
tolerance of 0.01 dwarfs any float64 rounding; IEEE signed zero is
collapsed to the single rational 0). -/

inductive PFloat where
  | fin (q : ℚ)
  | inf
  | ninf
  | nan
deriving DecidableEq

def PFloat.sub : PFloat → PFloat → PFloat
  | .nan, _ => .nan
  | _, .nan => .nan
  | .fin a, .fin b => .fin (a - b)
  | .fin _, .inf => .ninf
  | .fin _, .ninf => .inf
  | .inf, .fin _ => .inf
  | .ninf, .fin _ => .ninf
  | .inf, .ninf => .inf
  | .ninf, .inf => .ninf
  | .inf, .inf => .nan
  | .ninf, .ninf => .nan

def PFloat.mul : PFloat → PFloat → PFloat
  | .nan, _ => .nan
  | _, .nan => .nan
  | .fin a, .fin b => .fin (a * b)
  | .fin a, .inf => if 0 < a then .inf else if a < 0 then .ninf else .nan
  | .inf, .fin a => if 0 < a then .inf else if a < 0 then .ninf else .nan
  | .fin a, .ninf => if 0 < a then .ninf else if a < 0 then .inf else .nan
  | .ninf, .fin a => if 0 < a then .ninf else if a < 0 then .inf else .nan
  | .inf, .inf => .inf
  | .ninf, .ninf => .inf
  | .inf, .ninf => .ninf
  | .ninf, .inf => .ninf

def PFloat.div : PFloat → PFloat → PFloat
  | .nan, _ => .nan
  | _, .nan => .nan
  | .fin a, .fin b =>
    if b = 0 then if 0 < a then .inf else if a < 0 then .ninf else .nan
    else .fin (a / b)
  | .fin _, .inf => .fin 0
  | .fin _, .ninf => .fin 0
  | .inf, .fin b => if 0 ≤ b then .inf else .ninf
  | .ninf, .fin b => if 0 ≤ b then .ninf else .inf
  | .inf, .inf => .nan
  | .inf, .ninf => .nan
  | .ninf, .inf => .nan
  | .ninf, .ninf => .nan

/-- `recovery_from_low = ((current_price - ytd_low) / ytd_low) * 100`
(`YearToDateLowAnalyzer.get_detailed_stock_info`, ytd_low_analyzer.py:175);
this is the "(price minus the year-to-date low) divided by the year-to-date
low times 100" computation of the spec. -/
def recovery_from_low_calc (current_price ytd_low : PFloat) : PFloat :=
  ((current_price.sub ytd_low).div ytd_low).mul (.fin 100)

/-- Modelled from the spec: `YTDHighAnalyzer.calculate_ytd_high_ratio` is
code of this repository missing from src/ — only its tests exist
(tests/test_ytd_high_analyzer.py imports `YTDHighAnalyzer` from
ytd_high_analyzer, which defines no such class).  Per the spec:
"`ytd_high_ratio = price / ytd_high * 100`; when `ytd_high` is zero, the
result is undefined (NaN), not an exception". -/
def calc_ytd_high_pct_spec (price ytd_high : PFloat) : PFloat :=
  if ytd_high = .fin 0 then .nan else (price.div ytd_high).mul (.fin 100)

/-! ### Recovery score (ytd_low_analyzer.py:257-320)

The values `calculate_recovery_score` reads from the detail dict are either
floats (possibly NaN) or the string sentinel `"N/A"`; absent keys fall back
to the `.get` defaults.  Comparing the sentinel with a number raises
`TypeError`, which the surrounding `try/except: pass` swallows, freezing the
score at the value accumulated so far. -/

inductive PyNum where
  | num (q : ℚ)
  | nan
  | na
deriving DecidableEq

/-- The detail dict as read by `calculate_recovery_score`; `none` = key
absent.  Field names follow the source keys (`pb` = `pb_ratio`,
`pe` = `pe_ratio`). -/
structure ScoreInput where
  recovery_from_low_pct : Option PyNum
  pb : Option PyNum
  pe : Option PyNum
  dividend_yield : Option PyNum
  current_price : Option PyNum
  sma_20 : Option PyNum
  sma_50 : Option PyNum
  volatility_pct : Option PyNum
  low_decline_pct : Option PyNum

/-- Python `a > b` between two dict values: number comparisons are exact
(NaN compares false), `"N/A" > "N/A"` is a string comparison (false), and a
string/number mix raises `TypeError` (the `.error` case). -/
def pyGtVal : PyNum → PyNum → Except Unit Bool
  | .num a, .num b => .ok (decide (b < a))
  | .nan, .num _ => .ok false
  | .num _, .nan => .ok false
  | .nan, .nan => .ok false
  | .na, .na => .ok false
  | .na, _ => .error ()
  | _, .na => .error ()

/-- `stock_info.get("recovery_from_low_pct", 0) > 20 / > 10 / > 5`
(ytd_low_analyzer.py:271-276). -/
def step_recovery (v : PyNum) : Except Unit ℤ := do
  if ← pyGtVal v (.num 20) then pure 15
  else if ← pyGtVal v (.num 10) then pure 10
  else if ← pyGtVal v (.num 5) then pure 5
  else pure 0

/-- `pb_ratio != "N/A" and pb_ratio < 1.0 / < 1.5` (ytd_low_analyzer.py:279-283):
the sentinel guard short-circuits, so this step never raises. -/
def step_pb : PyNum → Except Unit ℤ
  | .na => .ok 0
  | .nan => .ok 0
  | .num q => .ok (if q < 1 then 15 else if q < 3 / 2 then 10 else 0)

/-- `pe_ratio != "N/A" and 5 < pe_ratio < 15` (ytd_low_analyzer.py:286-288). -/
def step_pe : PyNum → Except Unit ℤ
  | .na => .ok 0
  | .nan => .ok 0
  | .num q => .ok (if 5 < q ∧ q < 15 then 10 else 0)

/-- `dividend_yield != "N/A" and dividend_yield > 0.03` (ytd_low_analyzer.py:291-293). -/
def step_div : PyNum → Except Unit ℤ
  | .na => .ok 0
  | .nan => .ok 0
  | .num q => .ok (if 3 / 100 < q then 10 else 0)

/-- `if current_price > sma_20 > sma_50: +15 elif current_price > sma_20: +5`
(ytd_low_analyzer.py:296-303); the chained comparison short-circuits. -/
def step_ma (cp s20 s50 : PyNum) : Except Unit ℤ := do
  if ← pyGtVal cp s20 then
    if ← pyGtVal s20 s50 then pure 15 else pure 5
  else pure 0

/-- `volatility < 30` with default 100 (ytd_low_analyzer.py:306-308). -/
def step_vol : PyNum → Except Unit ℤ
  | .na => .error ()
  | .nan => .ok 0
  | .num q => .ok (if q < 30 then 5 else 0)

/-- `abs(low_decline_pct) > 50 / > 30` with default 0 (ytd_low_analyzer.py:311-315);
`abs("N/A")` raises. -/
def step_decline : PyNum → Except Unit ℤ
  | .na => .error ()
  | .nan => .ok 0
  | .num q => .ok (if 50 < |q| then 10 else if 30 < |q| then 5 else 0)

/-- The seven scoring steps in source order, each with its `.get` default. -/
def scoreSteps (i : ScoreInput) : List (Except Unit ℤ) :=
  [step_recovery (i.recovery_from_low_pct.getD (.num 0)),
    step_pb (i.pb.getD .na),
    step_pe (i.pe.getD .na),
    step_div (i.dividend_yield.getD .na),
    step_ma (i.current_price.getD (.num 0)) (i.sma_20.getD (.num 0)) (i.sma_50.getD (.num 0)),
    step_vol (i.volatility_pct.getD (.num 100)),
    step_decline (i.low_decline_pct.getD (.num 0))]

/-- Accumulate step contributions; a raising step aborts the remaining
steps but keeps the score accumulated so far (the `except Exception: pass`). -/
def addUntilError (acc : ℤ) : List (Except Unit ℤ) → ℤ
  | [] => acc
  | .error _ :: _ => acc
  | .ok t :: rest => addUntilError (acc + t) rest

/-- `YearToDateLowAnalyzer.calculate_recovery_score` (ytd_low_analyzer.py:257-320):
base score 50, term accumulation under `try/except: pass`, then
`min(max(score, 0), 100)`. -/
def calculate_recovery_score (i : ScoreInput) : ℤ :=
  min (max (addUntilError 50 (scoreSteps i)) 0) 100

/-! ### Dataframe filtering (ytd_high_analyzer.py:243-279)

A dataframe row as read by `YearToDateHighAnalyzer.filter_stocks`.  The
`market_cap != "N/A"` guard is modelled over numeric columns (where it is
trivially true); criteria are the dict keys, `none` = key not supplied.
`max_market_cap` appears in the claim of the spec but the source reads no such
key, so the field exists in the model and is never consulted. -/

structure FRow where
  ytd_return_pct : ℚ
  high_return_pct : ℚ
  sector : String
  market_cap : ℚ
deriving DecidableEq

structure FilterCriteria where
  min_ytd_return : Option ℚ
  min_high_return : Option ℚ
  sectors : Option (List String)
  min_market_cap : Option ℚ
  max_market_cap : Option ℚ
deriving DecidableEq

/-- `YearToDateHighAnalyzer.filter_stocks` (ytd_high_analyzer.py:243-279):
successive boolean-mask filters for the recognized keys, in source order. -/
def filter_stocks (df : List FRow) (c : FilterCriteria) : List FRow :=
  let df1 :=
    match c.min_ytd_return with
    | some v => df.filter fun r => decide (v ≤ r.ytd_return_pct)
    | none => df
  let df2 :=
    match c.min_high_return with
    | some v => df1.filter fun r => decide (v ≤ r.high_return_pct)
    | none => df1
  let df3 :=
    match c.sectors with
    | some ss => df2.filter fun r => decide (r.sector ∈ ss)
    | none => df2
  match c.min_market_cap with
  | some v => df3.filter fun r => decide (v ≤ r.market_cap)
  | none => df3

/-- Single-predicate reading of the recognized criteria: logical AND of all
supplied criteria, omitted keys unconstrained. -/
def satisfiesCriteria (c : FilterCriteria) (r : FRow) : Bool :=
  (match c.min_ytd_return with
    | some v => decide (v ≤ r.ytd_return_pct)
    | none => true)
  && (match c.min_high_return with
    | some v => decide (v ≤ r.high_return_pct)
    | none => true)
  && (match c.sectors with
    | some ss => decide (r.sector ∈ ss)
    | none => true)
  && (match c.min_market_cap with
    | some v => decide (v ≤ r.market_cap)
    | none => true)

/-! ### Spec-side comparison definitions and concrete demonstration inputs -/

/-- What the spec says about rank cleaning — "strip trailing periods" — defined
for comparison with the source-side `replace(".", "")`, which removes every
period. -/
def stripTrailingPeriods_spec (s : List Char) : List Char :=
  (s.reverse.dropWhile (fun c => c == '.')).reverse

def demoHtml : String := "<script> window.mainRankingList = \x7binvalid json\x7d; </script>"

def demoBlob : String := "\x7binvalid json\x7d"

/-- A decoder oracle rejecting every blob (the behaviour of `json.loads` on
`\x7binvalid json\x7d`). -/
def demoJdec : String → Except String JVal := fun _ => .error ("Expecting value")

/-- Page oracle with 2 records on page 1, 1 on page 2, none on page 3. -/
def demoPagesA : Nat → Except ScrapeError (List Nat) := fun p =>
  if p = 1 then .ok [101, 102] else if p = 2 then .ok [201] else .ok []

/-- The same page contents for the yahoo_finance_scraper driver. -/
def demoPagesB : Nat → Option (List Nat) := fun p =>
  if p = 1 then some [101, 102] else if p = 2 then some [201] else some []

/-- Pages for the stop-high error theorem: page 1 has a record, page 2
raises a `NetworkError`. -/
def demoPagesErr : Nat → Except ScrapeError (List Nat) := fun p =>
  if p = 1 then .ok [7] else .error (.networkError ("boom"))

/-- Pages for the ytd loop: page 1 ok, page 2 raises, page 3 ok. -/
def demoPagesYtd : Nat → Except Unit (List Nat) := fun p =>
  if p = 1 then .ok [11] else if p = 2 then .error () else .ok [33]

def demoAnchorNoHref : Anchor := { text := "テスト株式", href? := none }

def demoCellRank : Cell := { text := "1", fullText := "1", link? := none, span? := none }

def demoCellStock : Cell :=
  { text := "テスト株式", fullText := "1234 テスト株式", link? := some demoAnchorNoHref,
    span? := some ("東証") }

def demoCellPrice : Cell := { text := "1000", fullText := "1000", link? := none, span? := none }

def demoFRow : FRow :=
  { ytd_return_pct := 0, high_return_pct := 0, sector := "電気機器", market_cap := 100 }

/-! ### Helper lemmas -/

theorem searchKeyCapture_ne_nil (key : List Char) (stop : Char → Bool) :
    ∀ s cap, searchKeyCapture key stop s = some cap → cap ≠ [] := by
  intro s
  induction s with
  | nil => intro cap h; simp [searchKeyCapture] at h
  | cons c rest ih =>
    intro cap h
    rw [searchKeyCapture] at h
    by_cases hp : key.isPrefixOf (c :: rest)
    · simp only [hp, if_true] at h
      rcases htk : ((c :: rest).drop key.length).takeWhile (fun ch => !stop ch) with _ | ⟨a, as⟩
      · rw [htk] at h; exact ih cap h
      · rw [htk] at h
        simp only [Option.some.injEq] at h
        subst h; simp
    · simp only [hp, if_false] at h
      exact ih cap h

theorem findFourDigits_ne_nil : ∀ s d, findFourDigits s = some d → d ≠ [] := by
  intro s
  induction s with
  | nil => intro d h; simp [findFourDigits] at h
  | cons a tail ih =>
    intro d h
    match tail, ih with
    | [], _ => simp [findFourDigits] at h
    | [b], _ => simp [findFourDigits] at h
    | [b, c], _ => simp [findFourDigits] at h
    | b :: c :: e :: rest, ih =>
      rw [findFourDigits] at h
      by_cases hd : (a.isDigit && b.isDigit && c.isDigit && e.isDigit) = true
      · simp only [hd, if_true, Option.some.injEq] at h; subst h; simp
      · simp only [hd, if_false] at h
        exact ih d h

/-- C4: stock-code extraction tries, in order: a `code=<value>` query match
(up to the next `&`), else the per-variant path-segment match (`/quote/<value>`
in stop_low/ytd, `/detail/<value>` in simple_yahoo/yahoo_finance, up to the
next `/` or `?`), else the first 4-digit run of the stock cell text, else
the positional placeholder (`UNKNOWN_{n}` / `UNK{n}`); a code found via a
query/path match has its dotted `.T` market suffix stripped (in the two
cited variants).  Stated as the ordered-fallback laws for the stop-low
extractor plus the concrete vectors of the spec for both path-pattern variants. -/
theorem C4_code_extraction_fallback_order :
    (∀ href cell i cap, searchKeyCapture keyCode stopAmp href = some cap →
      extract_stock_code_low href cell i = replaceDotT cap) ∧
    (∀ href cell i cap, searchKeyCapture keyCode stopAmp href = none →
      searchKeyCapture keyQuote stopSlashQm href = some cap →
      extract_stock_code_low href cell i = replaceDotT cap) ∧
    (∀ href cell i d, searchKeyCapture keyCode stopAmp href = none →
      searchKeyCapture keyQuote stopSlashQm href = none →
      findFourDigits cell = some d →
      extract_stock_code_low href cell i = d) ∧
    (∀ href cell i, searchKeyCapture keyCode stopAmp href = none →
      searchKeyCapture keyQuote stopSlashQm href = none →
      findFourDigits cell = none →
      extract_stock_code_low href cell i = "UNKNOWN_".data ++ (toString i).data) ∧
    extract_stock_code_low ("?code=7203&x=1").data ("").data 1 = "7203".data ∧
    extract_stock_code_low ("/quote/1234").data ("").data 1 = "1234".data ∧
    extract_stock_code_low ("/unknown/path").data ("5678 Example Co").data 1 = "5678".data ∧
    extract_stock_code_low ("/unknown/path").data ("no code here").data 5 = "UNKNOWN_5".data ∧
    extract_stock_code_simple ("/unknown").data ("no code").data 5 = "UNK5".data ∧
    extract_stock_code_low ("/quote/7203.T").data ("").data 1 = "7203".data ∧
    extract_stock_code_low ("?code=8035.T&x=1").data ("").data 1 = "8035".data ∧
    extract_stock_code_simple ("/detail/1234").data ("").data 1 = "1234".data := by
  refine ⟨?_, ?_, ?_, ?_, ?_, ?_, ?_, ?_, ?_, ?_, ?_, ?_⟩
  · intro href cell i cap h
    simp [extract_stock_code_low, h]
  · intro href cell i cap h1 h2
    simp [extract_stock_code_low, h1, h2]
  · intro href cell i d h1 h2 h3
    simp [extract_stock_code_low, h1, h2, h3]
  · intro href cell i h1 h2 h3
    simp [extract_stock_code_low, h1, h2, h3]
  all_goals decide

/-- Witness for C4: the first fallback law applied at a concrete href. -/
theorem C4_witness :
    extract_stock_code_low ("a?code=12&b").data ("").data 9 = replaceDotT ("12").data :=
  C4_code_extraction_fallback_order.1 ("a?code=12&b").data ("").data 9 ("12").data (by decide)

/-- C5 (counterexample): the claim says the rank cell is cleaned by
stripping TRAILING periods and a row whose cleaned text is not purely
numeric is skipped.  For the cell text `"1.2"` the trailing-period strip
leaves `"1.2"`, which is not purely numeric, so the claim predicts the row
is skipped — but the source removes EVERY period (`replace(".", "")`) and
accepts the row with rank 12. -/
theorem C5_counterexample :
    parse_rank_simple ("1.2") = some 12 ∧
    stripTrailingPeriods_spec ("1.2").data = "1.2".data ∧
    allDigits (stripTrailingPeriods_spec ("1.2").data) = false := by
  refine ⟨by decide, by decide, by decide⟩

/-- C5 (amended): the simple_yahoo/stop-family variants remove every period
from the rank text (not only trailing ones) and require the remainder to be
all digits, emitting its integer value; the yahoo_finance variant removes
nothing and requires the raw text to be all digits.  For rank texts of the
shape named by the claim — digits followed only by trailing periods — the behaviour is
exactly as claimed: accepted with the integer value of the stripped text. -/
theorem C5_rank_parsing :
    (∀ t, (parse_rank_simple t).isSome = true ↔ allDigits (removePeriods t.data) = true) ∧
    (∀ t n, parse_rank_simple t = some n → n = natOfDigits (removePeriods t.data)) ∧
    (∀ t, (parse_rank_yahoo t).isSome = true ↔ allDigits t.data = true) ∧
    (∀ ds k, allDigits ds = true →
      parse_rank_simple (String.mk (ds ++ List.replicate k '.')) = some (natOfDigits ds)) := by
  refine ⟨?_, ?_, ?_, ?_⟩
  · intro t
    by_cases h : allDigits (removePeriods t.data) = true <;> simp [parse_rank_simple, h]
  · intro t n h
    by_cases hd : allDigits (removePeriods t.data) = true
    · simp [parse_rank_simple, hd] at h; omega
    · simp [parse_rank_simple, hd] at h
  · intro t
    by_cases h : allDigits t.data = true <;> simp [parse_rank_yahoo, h]
  · intro ds k hd
    have hstrip : removePeriods (ds ++ List.replicate k '.') = ds := by
      have h1 : removePeriods (List.replicate k '.') = [] := by
        induction k with
        | zero => rfl
        | succ m ih => simp only [removePeriods, List.replicate, List.filter] at ih ⊢; simp [ih]
      have h2 : ∀ c ∈ ds, (c != '.') = true := by
        intro c hc
        have hd' := hd
        simp only [allDigits, Bool.and_eq_true] at hd'
        have hdig : c.isDigit = true := by
          have := List.all_eq_true.mp hd'.2 c hc
          simpa using this
        simp only [bne_iff_ne, ne_eq]
        intro hEq
        subst hEq
        simp [Char.isDigit] at hdig
      calc removePeriods (ds ++ List.replicate k '.')
          = removePeriods ds ++ removePeriods (List.replicate k '.') := by
            simp [removePeriods, List.filter_append]
        _ = removePeriods ds := by rw [h1, List.append_nil]
        _ = ds := List.filter_eq_self.mpr h2
    show parse_rank_simple ⟨ds ++ List.replicate k '.'⟩ = some (natOfDigits ds)
    unfold parse_rank_simple
    simp only [hstrip, hd, if_true]

/-- Witness for C5: the trailing-period law applied at the rank text `"17."`. -/
theorem C5_witness : parse_rank_simple (String.mk ("17".data ++ List.replicate 1 '.')) =
    some (natOfDigits ("17").data) :=
  C5_rank_parsing.2.2.2 ("17").data 1 (by decide)

/-- C7 (counterexample): the claim says a zero denominator in
`(price - ytd_low) / ytd_low * 100` produces the undefined sentinel (NaN).
The source computation (ytd_low_analyzer.py:175) over float64 yields
+infinity for price 2500 and ytd_low 0, not NaN. -/
theorem C7_counterexample :
    recovery_from_low_calc (.fin 2500) (.fin 0) = PFloat.inf ∧ PFloat.inf ≠ PFloat.nan := by
  constructor
  · unfold recovery_from_low_calc
    norm_num [PFloat.sub, PFloat.div, PFloat.mul]
  · intro h
    cases h

/-- C7 (amended): neither ratio raises on a zero denominator.  The
spec-modelled `ytd_high_ratio` (the class computing it is absent from src/;
only its tests exist) yields NaN on a zero `ytd_high` and equals
96.1538… within 0.01 for price 2500 / ytd_high 2600.  The src
low-distance computation `(price - ytd_low) / ytd_low * 100` yields
+infinity (not NaN) on a zero `ytd_low` with positive price, and NaN only
when the price is zero as well. -/
theorem C7_ratio_zero_denominator :
    calc_ytd_high_pct_spec (.fin 2500) (.fin 2600) = .fin (1250 / 13) ∧
    |(1250 / 13 : ℚ) - 96.1538| ≤ 0.01 ∧
    (∀ p, calc_ytd_high_pct_spec p (.fin 0) = .nan) ∧
    (∀ q : ℚ, 0 < q → recovery_from_low_calc (.fin q) (.fin 0) = .inf) ∧
    recovery_from_low_calc (.fin 0) (.fin 0) = .nan := by
  refine ⟨?_, ?_, ?_, ?_, by unfold recovery_from_low_calc; norm_num [PFloat.sub, PFloat.div, PFloat.mul]⟩
  · show (if (PFloat.fin 2600) = .fin 0 then _ else _) = _
    norm_num [PFloat.div, PFloat.mul]
  · rw [abs_le]; constructor <;> norm_num
  · intro p; simp [calc_ytd_high_pct_spec]
  · intro q hq
    unfold recovery_from_low_calc
    simp only [PFloat.sub, sub_zero, PFloat.div, if_pos rfl, if_pos hq, PFloat.mul]
    norm_num

/-- Witness for C7: the positive-price zero-denominator law at price 2500. -/
theorem C7_witness : recovery_from_low_calc (.fin 2500) (.fin 0) = PFloat.inf :=
  C7_ratio_zero_denominator.2.2.2.1 2500 (by norm_num)

/-- C8: the recovery score is always a defined number in the closed range
[0, 100] (the computation is total — Python exceptions are swallowed by the
`try/except: pass`, and the score is an integer accumulation, so it can
never be NaN), and the terms for the `"N/A"`-sentinel inputs PER, PBR and
dividend yield contribute exactly zero; an absent key defaults to the same
sentinel and therefore also contributes zero. -/
theorem C8_recovery_score_bounds :
    (∀ i, 0 ≤ calculate_recovery_score i ∧ calculate_recovery_score i ≤ 100) ∧
    step_pb .na = .ok 0 ∧ step_pe .na = .ok 0 ∧ step_div .na = .ok 0 ∧
    (∀ i : ScoreInput, calculate_recovery_score { i with pb := some PyNum.na } =
      calculate_recovery_score { i with pb := none }) ∧
    (∀ i : ScoreInput, calculate_recovery_score { i with pe := some PyNum.na } =
      calculate_recovery_score { i with pe := none }) ∧
    (∀ i : ScoreInput, calculate_recovery_score { i with dividend_yield := some PyNum.na } =
      calculate_recovery_score { i with dividend_yield := none }) := by
  refine ⟨?_, rfl, rfl, rfl, fun i => rfl, fun i => rfl, fun i => rfl⟩
  intro i
  unfold calculate_recovery_score
  constructor
  · exact le_min (le_max_right _ 0) (by norm_num)
  · exact min_le_right _ 100

/-- C9 (counterexample): the claim says filtering by
`{min_market_cap: X, max_market_cap: Y}` keeps only rows with market_cap in
[X, Y].  `filter_stocks` reads no `max_market_cap` key, so with X = 0 and
Y = 10 a row with market_cap 100 is kept. -/
theorem C9_counterexample :
    filter_stocks [demoFRow]
        { min_ytd_return := none, min_high_return := none, sectors := none,
          min_market_cap := some 0, max_market_cap := some 10 } = [demoFRow] ∧
    demoFRow.market_cap = 100 ∧ ¬((100 : ℚ) ≤ 10) := by
  refine ⟨?_, rfl, by norm_num⟩
  simp only [filter_stocks]
  norm_num [demoFRow, List.filter]

/-- C9 (amended): `filter_stocks` applies the logical AND of its recognized
criteria — `min_ytd_return`, `min_high_return`, `sectors` (set membership)
and `min_market_cap` (inclusive lower bound) — and omitted keys impose no
constraint; the key `max_market_cap` is not recognized and also imposes no
constraint, so `{min_market_cap: X, max_market_cap: Y}` keeps every row with
market_cap ≥ X regardless of Y. -/
theorem C9_filtering_and_semantics :
    (∀ df c, filter_stocks df c = df.filter fun r => satisfiesCriteria c r) ∧
    (∀ df c y, filter_stocks df { c with max_market_cap := some y } = filter_stocks df c) ∧
    (∀ r, satisfiesCriteria
      { min_ytd_return := none, min_high_return := none, sectors := none,
        min_market_cap := none, max_market_cap := none } r = true) ∧
    (∀ ss mn r, satisfiesCriteria
      { min_ytd_return := none, min_high_return := none, sectors := some ss,
        min_market_cap := some mn, max_market_cap := none } r =
      (decide (r.sector ∈ ss) && decide (mn ≤ r.market_cap))) := by
  refine ⟨?_, ?_, fun r => rfl, fun ss mn r => by simp [satisfiesCriteria]⟩
  · intro df c
    rcases c with ⟨myr, mhr, ss, mmc, mxc⟩
    cases myr <;> cases mhr <;> cases ss <;> cases mmc <;>
      simp [filter_stocks, satisfiesCriteria, List.filter_filter,
        Bool.and_comm, Bool.and_left_comm, Bool.and_assoc]
  · intro df c y
    rcases c with ⟨myr, mhr, ss, mmc, mxc⟩
    rfl

theorem extract_stock_code_high_ne_nil (cell href : List Char) (i : Nat) :
    extract_stock_code_high cell href i ≠ [] := by
  unfold extract_stock_code_high
  rcases h1 : searchKeyCapture keyCode stopAmp href with _ | cap
  · rcases h2 : searchKeyCapture keyQuote stopSlashQm href with _ | cap2
    · rcases h3 : findFourDigits cell with _ | d
      · simp
      · exact findFourDigits_ne_nil cell d h3
    · exact searchKeyCapture_ne_nil _ _ href cap2 h2
  · exact searchKeyCapture_ne_nil _ _ href cap h1

/-- C1: when an embedded-JSON pattern matches but the captured blob fails to
decode, extraction raises a `DataParsingError` carrying the decode failure
(`"JSON解析エラー: ..."`); the page dispatch then propagates a failure (the
generic `except Exception` re-wraps it into the base scraper error) — it
neither falls back to the HTML path nor returns an empty result.  When no
pattern matches, the JSON path returns `[]` without error and the dispatch
takes the HTML path. -/
theorem C1_json_parse_failure (jdec : String → Except String JVal)
    (soupRows : String → List Row) :
    (∀ html blob e, findJsonBlob html = some blob → jdec blob = .error e →
      extract_from_json jdec html = .error (.dataParsingError ("JSON解析エラー: " ++ e)) ∧
      process_response jdec soupRows html =
        .error (.scraperError ("予期しないエラーが発生しました: " ++ ("JSON解析エラー: " ++ e)))) ∧
    (∀ html, findJsonBlob html = none →
      extract_from_json jdec html = .ok [] ∧
      process_response jdec soupRows html = .ok (.inr (extract_from_html (soupRows html)))) := by
  constructor
  · intro html blob e hfind hdec
    have h1 : extract_from_json jdec html =
        .error (.dataParsingError ("JSON解析エラー: " ++ e)) := by
      simp only [extract_from_json, hfind, hdec]
    refine ⟨h1, ?_⟩
    unfold process_response
    rw [h1]
    rfl
  · intro html hfind
    have h1 : extract_from_json jdec html = .ok [] := by
      unfold extract_from_json
      rw [hfind]
    refine ⟨h1, ?_⟩
    unfold process_response
    rw [h1]
    rfl

/-- Witness for C1: the page text
`<script> window.mainRankingList = \x7binvalid json\x7d; </script>` with a
decoder that rejects the blob. -/
theorem C1_witness :
    extract_from_json demoJdec demoHtml =
      .error (.dataParsingError ("JSON解析エラー: " ++ "Expecting value")) :=
  ((C1_json_parse_failure demoJdec fun _ => []).1 demoHtml demoBlob ("Expecting value")
    (by rfl) rfl).1

/-- C2 (counterexample): the claim requires every emitted record (JSON or
HTML path) to have a stock name and a real-or-synthesized stock code.  On
the JSON path a `results` element with neither `stockName` nor `stockCode`
is NOT skipped: it is emitted with empty-string defaults (the repository
test `test_parse_ranking_data_missing_fields` asserts exactly this), so
a record with no name and an empty — neither real nor synthesized — code is
produced. -/
theorem C2_counterexample :
    parse_ranking_data (JVal.obj [("results", JVal.arr [JVal.obj []])]) =
      .ok [{ rank := 1, stock_code := .s (""), stock_name := .s (""), market := .s (""),
             current_price := .s (""), yahoo_url := "https://finance.yahoo.co.jp/quote/",
             price_change := none, price_change_rate := none, previous_close := none }] := by
  rfl

/-- C2 (amended): on the HTML path a record is emitted iff the row has at
least 3 cells, a rank text that is all digits once periods are removed, and
an anchor in the stock cell — such rows always carry a non-empty stock code
(real or synthesized).  On the JSON path, rows are never filtered for
missing name or code: a bare object element is emitted with empty-string
defaults for both. -/
theorem C2_emission_requirements :
    (∀ (cells : List Cell) i, cells.length < 3 → parse_table_row ⟨cells⟩ i = none) ∧
    (∀ c0 c1 c2 rest i,
      (parse_table_row ⟨c0 :: c1 :: c2 :: rest⟩ i).isSome = true ↔
        (allDigits (removePeriods c0.text.data) = true ∧ c1.link?.isSome = true)) ∧
    (∀ row i rec, parse_table_row row i = some rec → rec.stock_code ≠ ("")) ∧
    (∀ i, parse_ranking_row i (.obj []) = some
      { rank := i, stock_code := .s (""), stock_name := .s (""), market := .s (""),
        current_price := .s (""), yahoo_url := "https://finance.yahoo.co.jp/quote/",
        price_change := none, price_change_rate := none, previous_close := none }) := by
  refine ⟨?_, ?_, ?_, fun i => rfl⟩
  · intro cells i h
    rcases cells with _ | ⟨a, _ | ⟨b, _ | ⟨c, r⟩⟩⟩
    · rfl
    · rfl
    · rfl
    · simp only [List.length_cons] at h
      omega
  · intro c0 c1 c2 rest i
    by_cases hd : allDigits (removePeriods c0.text.data) = true <;>
      rcases hl : c1.link? with _ | link <;>
      simp [parse_table_row, hd, hl]
  · intro row i rec h
    rcases row with ⟨cells⟩
    rcases cells with _ | ⟨c0, _ | ⟨c1, _ | ⟨c2, rest⟩⟩⟩
    · exact absurd h (by simp [parse_table_row])
    · exact absurd h (by simp [parse_table_row])
    · exact absurd h (by simp [parse_table_row])
    · simp only [parse_table_row] at h
      split at h
      · split at h
        case isTrue.h_1 link hl =>
          rw [Option.some.injEq] at h
          subst h
          intro hEq
          exact extract_stock_code_high_ne_nil c1.fullText.data
            ((link.href?.getD ("")).data) i (congrArg String.data hEq)
        case isTrue.h_2 => exact absurd h (by simp)
      · exact absurd h (by simp)

/-- Witness for C2: a row with no cells is skipped. -/
theorem C2_witness : parse_table_row (Row.mk []) 1 = none :=
  C2_emission_requirements.1 [] 1 (by decide)

/-- C10: a row whose anchor has no `href` attribute (or an href not starting
with `/`) is still emitted when the rank and anchor checks pass, and the
emitted URL is the href value verbatim — the empty string when the
attribute is absent. -/
theorem C10_url_verbatim :
    ∀ (c0 c1 c2 : Cell) (rest : List Cell) (i : Nat) (link : Anchor),
      allDigits (removePeriods c0.text.data) = true →
      c1.link? = some link →
      ∃ rec, parse_table_row ⟨c0 :: c1 :: c2 :: rest⟩ i = some rec ∧
        (link.href? = none → rec.yahoo_url = "") ∧
        (∀ h, link.href? = some h → startsSlash h.data = false → rec.yahoo_url = h) := by
  intro c0 c1 c2 rest i link hd hl
  simp only [parse_table_row, hd, if_true, hl]
  refine ⟨_, rfl, ?_, ?_⟩
  · intro hh
    simp [hh, startsSlash]
  · intro h hh hs
    simp [hh, hs]

/-- Witness for C10: a concrete 3-cell row whose anchor carries no href. -/
theorem C10_witness :
    ∃ rec, parse_table_row (Row.mk [demoCellRank, demoCellStock, demoCellPrice]) 1 = some rec ∧
      rec.yahoo_url = "" := by
  obtain ⟨rec, h1, h2, h3⟩ :=
    C10_url_verbatim demoCellRank demoCellStock demoCellPrice [] 1 demoAnchorNoHref
      (by decide) rfl
  exact ⟨rec, h1, h2 rfl⟩

/-- In the stop-high loop, a completed run always has
`delays = fetched - 1`: the inter-page sleep happens only between
consecutive requests, never after the last fetched page. -/
theorem runPages_delays (pages : Nat → Except ScrapeError (List α)) (maxP : Nat) :
    ∀ (n k : Nat) (acc : List α) (d f : Nat) (res : List α × Nat × Nat),
      k + n = maxP + 1 → 1 ≤ n →
      runPages pages maxP (pageList k n) acc d f = .ok res →
      res.2.1 + f + 1 = d + res.2.2 := by
  intro n
  induction n with
  | zero => intro k acc d f res hk h1; omega
  | succ m ih =>
    intro k acc d f res hk h1 hrun
    rw [pageList, runPages] at hrun
    rcases hp : pages k with e | xs
    · rw [hp] at hrun
      by_cases ht : e.isTyped = true
      · simp only [ht, if_true, Except.ok.injEq] at hrun
        subst hrun
        simp only []
        omega
      · simp only [Bool.not_eq_true] at ht
        simp [ht] at hrun
    · rw [hp] at hrun
      rcases xs with _ | ⟨x, xrest⟩
      · simp only [Except.ok.injEq] at hrun
        subst hrun
        simp only []
        omega
      · simp only at hrun
        by_cases hlt : k < maxP
        · rw [if_pos hlt] at hrun
          have := ih (k + 1) (acc ++ x :: xrest) (d + 1) (f + 1) res (by omega) (by omega) hrun
          omega
        · rw [if_neg hlt] at hrun
          have hm : m = 0 := by omega
          subst hm
          rw [pageList, runPages] at hrun
          simp only [Except.ok.injEq] at hrun
          subst hrun
          simp only []
          omega


/-- In the stop-high loop, a typed error on page `k + j` (after `j` earlier
non-empty pages) stops the loop and returns the records of the earlier pages with
`j` delays and `j + 1` requests. -/
theorem runPages_error_partial (pages : Nat → Except ScrapeError (List α)) (maxP : Nat)
    (xs : Nat → List α) :
    ∀ (j n k : Nat) (acc : List α) (d f : Nat) (e : ScrapeError),
      k + n = maxP + 1 → j < n →
      (∀ p, k ≤ p → p < k + j → pages p = .ok (xs p) ∧ xs p ≠ []) →
      pages (k + j) = .error e → e.isTyped = true →
      runPages pages maxP (pageList k n) acc d f =
        .ok (acc ++ concatMapPages xs (pageList k j), d + j, f + j + 1) := by
  intro j
  induction j with
  | zero =>
    intro n k acc d f e hk hj hok herr htyped
    rcases n with _ | m
    · omega
    rw [Nat.add_zero] at herr
    simp only [pageList, concatMapPages]
    rw [runPages, herr]
    simp [htyped]
  | succ j ih =>
    intro n k acc d f e hk hj hok herr htyped
    rcases n with _ | m
    · omega
    have hk0 := hok k le_rfl (by omega)
    rcases hxs : xs k with _ | ⟨x, xrest⟩
    · exact absurd hxs hk0.2
    simp only [pageList, concatMapPages]
    rw [runPages, hk0.1, hxs]
    have hklt : k < maxP := by omega
    simp only [hklt, if_true]
    have hok' : ∀ p, k + 1 ≤ p → p < (k + 1) + j → pages p = .ok (xs p) ∧ xs p ≠ [] := by
      intro p hp1 hp2
      exact hok p (by omega) (by omega)
    have herr' : pages ((k + 1) + j) = .error e := by
      rw [show (k + 1) + j = k + (j + 1) from by omega]
      exact herr
    have hrec := ih m (k + 1) (acc ++ x :: xrest) (d + 1) (f + 1) e (by omega) (by omega)
      hok' herr' htyped
    rw [hrec]
    simp only [List.append_assoc, Except.ok.injEq, Prod.mk.injEq]
    refine ⟨trivial, by omega, by omega⟩

/-- C3 (counterexample): the claim says the inter-page delay is never issued
after the last fetched page.  In `YahooFinanceJapanScraper.get_all_stocks`
the `time.sleep(1)` is unconditional after every non-empty page: a 1-page
run whose only (and therefore last) page is non-empty issues 1 delay, not 0. -/
theorem C3_counterexample :
    get_all_stocks (fun _ => some [0]) 1 = ([0], 1) ∧ (1 : Nat) ≠ 0 :=
  ⟨rfl, by decide⟩

/-- C3 (amended): both drivers fetch pages `1..max_pages` in order and stop
early, without error, at the first page yielding zero records; for the
concrete 3-page run (2, 1, 0 records) both return exactly 3 records with
exactly 2 delays.  `StopHighScraper.get_multiple_pages` issues the delay
only between consecutive page requests — a completed run always satisfies
`delays = fetched - 1` — while `YahooFinanceJapanScraper.get_all_stocks`
sleeps after every non-empty page, including the last one. -/
theorem C3_multi_page_delays :
    (∀ (α : Type) (pages : Nat → Except ScrapeError (List α)) (maxPn : Nat)
      (recs : List α) (d f : Nat), 1 ≤ maxPn →
      get_multiple_pages pages ((maxPn : Nat) : Int) = .ok (recs, d, f) → d + 1 = f) ∧
    get_multiple_pages demoPagesA ((3 : Nat) : Int) = .ok ([101, 102, 201], 2, 3) ∧
    get_all_stocks demoPagesB 3 = ([101, 102, 201], 2) ∧
    get_all_stocks (fun _ => some [(0 : Nat)]) 3 = ([0, 0, 0], 3) := by
  refine ⟨?_, by rfl, by rfl, by rfl⟩
  intro α pages maxPn recs d f hmax hrun
  unfold get_multiple_pages at hrun
  rw [if_neg (by omega)] at hrun
  rw [show ((maxPn : Nat) : Int).toNat = maxPn from by omega] at hrun
  have := runPages_delays pages maxPn maxPn 1 [] 0 0 (recs, d, f) (by omega) hmax hrun
  simpa using this

/-- Witness for C3: the delays-equals-fetched-minus-one law at the concrete
3-page oracle. -/
theorem C3_witness : (2 : Nat) + 1 = 3 :=
  C3_multi_page_delays.1 Nat demoPagesA 3 [101, 102, 201] 2 3 (by omega) (by rfl)

/-- C6 (counterexample): the claim says a page error stops the multi-page
loop at that page, returning only the records of the earlier pages.  In
`YearToDateHighAnalyzer.get_ytd_high_stocks` the per-page
`except Exception: continue` skips the failed page and keeps collecting:
with page 2 erroring, the page-3 records are still returned. -/
theorem C6_counterexample :
    demoPagesYtd 2 = .error () ∧ get_ytd_high_stocks demoPagesYtd 3 = [11, 33] :=
  ⟨rfl, rfl⟩

/-- C6 (amended): in `StopHighScraper.get_multiple_pages` a typed error
(ValidationError / NetworkError / DataParsingError) on a page stops the
loop immediately and the records of all earlier pages are returned as an
ok result — the error is not re-raised and nothing is discarded.  In
`YearToDateHighAnalyzer.get_ytd_high_stocks` a page error is caught and the
loop continues with the next page instead. -/
theorem C6_typed_error_stops_loop :
    (∀ (α : Type) (pages : Nat → Except ScrapeError (List α)) (maxPn : Nat)
      (xs : Nat → List α) (j : Nat) (e : ScrapeError), j < maxPn →
      (∀ p, 1 ≤ p → p < 1 + j → pages p = .ok (xs p) ∧ xs p ≠ []) →
      pages (1 + j) = .error e → e.isTyped = true →
      get_multiple_pages pages ((maxPn : Nat) : Int) =
        .ok (concatMapPages xs (pageList 1 j), j, j + 1)) ∧
    (∀ (β : Type) (pages : Nat → Except Unit (List β)) (p : Nat) (rest : List Nat)
      (acc : List β) (e : Unit), pages p = .error e →
      ytdCollectLoop pages (p :: rest) acc = ytdCollectLoop pages rest acc) := by
  constructor
  · intro α pages maxPn xs j e hj hok herr htyped
    unfold get_multiple_pages
    rw [if_neg (by omega)]
    rw [show ((maxPn : Nat) : Int).toNat = maxPn from by omega]
    have := runPages_error_partial pages maxPn xs j maxPn 1 [] 0 0 e (by omega) hj hok
      herr htyped
    simpa using this
  · intro β pages p rest acc e herr
    rw [ytdCollectLoop, herr]

/-- Witness for C6: page 1 yields a record, page 2 raises a `NetworkError`;
the run returns the page-1 records with one delay and two requests. -/
theorem C6_witness :
    get_multiple_pages demoPagesErr ((2 : Nat) : Int) =
      .ok (concatMapPages (fun _ => [7]) (pageList 1 1), 1, 2) :=
  C6_typed_error_stops_loop.1 Nat demoPagesErr 2 (fun _ => [7]) 1 (.networkError ("boom"))
    (by omega)
    (fun p h1 h2 => by
      have hp : p = 1 := by omega
      subst hp
      exact ⟨rfl, by decide⟩)
    rfl rfl

end Scraper
